import Mathlib

/-!
Shallow embedding of the meme_description_generator pipeline core
(src/main.py and src/main_new.py) and proofs about its specification.

Conventions:
* Python strings are modelled as `String` / `List Char`.
* Python dicts returned by the pipeline are association lists
  `List (String × PyVal)`; insertion order is preserved, keys are distinct.
* External effects (HTTP calls, crew kickoffs, task outputs produced by the
  LLM service, clock timestamps) are passed in as explicit parameters, so each
  embedded function is a total function of the source code's control flow over
  those outcomes.  OS-level file-write failures are out of scope (writes are
  modelled as succeeding).
-/

set_option maxRecDepth 100000

/-- Python `\s` whitespace characters (the ASCII range, which covers every
input appearing in this development). -/
def isPySpace (c : Char) : Bool :=
  c = ' ' || c = '\t' || c = '\n' || c = '\r' || c = '\x0b' || c = '\x0c'

/-- Python `str.strip(chars)`: drop characters satisfying `p` from both ends. -/
def pyStrip (p : Char → Bool) (s : List Char) : List Char :=
  ((s.dropWhile p).reverse.dropWhile p).reverse

/-- Match a literal character sequence at the head of `s`, returning the
remainder on success (used to model literal regex parts). -/
def dropLit : List Char → List Char → Option (List Char)
  | [], s => some s
  | _, [] => none
  | c :: cs, d :: ds => if c = d then dropLit cs ds else none

/-- Split a character list at every separator satisfying `p`.  Like Python
`str.split(sep)`, the result always has at least one (possibly empty)
segment. -/
def splitOnPred (p : Char → Bool) : List Char → List (List Char)
  | [] => [[]]
  | c :: rest =>
    if p c then [] :: splitOnPred p rest
    else
      match splitOnPred p rest with
      | [] => [[c]]
      | seg :: segs => (c :: seg) :: segs

/-- The literal marker part of the regex
`\*\*Key Visual Keywords:\*\*\s*\[(.*?)\]` in `extract_keywords_from_translation`
(src/main.py line 55). -/
def kvkMarker : List Char := "**Key Visual Keywords:**".toList

/-- The lazy capture `(.*?)\]`: the shortest run of non-newline characters up
to a closing bracket (`.` does not match a newline in Python's default mode). -/
def lazyCapture : List Char → Option (List Char)
  | [] => none
  | c :: rest =>
    if c = ']' then some []
    else if c = '\n' then none
    else (lazyCapture rest).map (c :: ·)

/-- Try to match the whole keyword pattern at this exact position: the literal
marker, then `\s*`, then `[`, then the lazy capture. -/
def kvkMatchAt (s : List Char) : Option (List Char) :=
  match dropLit kvkMarker s with
  | none => none
  | some rest =>
    match rest.dropWhile isPySpace with
    | '[' :: rest2 => lazyCapture rest2
    | _ => none

/-- `re.search` over the keyword pattern: the match at the leftmost position
where the whole pattern matches. -/
def kvkSearch : List Char → Option (List Char)
  | [] => none
  | c :: rest =>
    match kvkMatchAt (c :: rest) with
    | some cap => some cap
    | none => kvkSearch rest

/-- `k.strip().strip('"').strip("'")` from src/main.py line 60. -/
def cleanToken (k : List Char) : List Char :=
  pyStrip (fun c => c = '\x27') (pyStrip (fun c => c = '"') (pyStrip isPySpace k))

/-- The fixed fallback keyword list (src/main.py lines 63 and 66). -/
def fallbackKeywords : List String := ["Korean Issue", "News", "Trending"]

/-- Embedding of `extract_keywords_from_translation` (src/main.py lines
52-66): search for the keyword marker; on a match, split the capture on
commas, strip each token, keep the nonempty ones and take at most 3;
otherwise return the fixed fallback list.  The function body raises no
exception on any string, so the `except` branch is dead. -/
def extract_keywords_from_translation (translation_result : String) : List String :=
  match kvkSearch translation_result.toList with
  | some cap =>
    ((((splitOnPred (fun c => c = ',') cap).map
        (fun k => String.mk (cleanToken k))).filter (fun k => k ≠ "")).take 3)
  | none => fallbackKeywords

/-- A task (crewai `Task`) as far as this development needs it: the rendered
instruction text, the expected-output text and the agent it is bound to. -/
structure CrewTask where
  description : String
  expected_output : String
  agent : String
  deriving DecidableEq

/-- Embedding of `create_image_search_task` (src/main.py lines 384-389). -/
def create_image_search_task (keyword : String) : CrewTask :=
  { description :=
      "Use \x27Serper Image Search\x27 tool to find one image URL for the keyword: \x27"
        ++ keyword ++ "\x27"
    expected_output := "JSON string containing keyword and image_url"
    agent := "collector_agent" }

/-- The dynamic fan-out of src/main.py line 621: one image-search task per
extracted keyword. -/
def imageSearchTasks (keywords : List String) : List CrewTask :=
  keywords.map create_image_search_task

/-- Values appearing in the result dicts the pipeline returns. -/
inductive PyVal where
  | str (s : String)
  | bool (b : Bool)
  | pyNone
  | strList (xs : List String)
  | strDict (xs : List (String × String))
  deriving DecidableEq

/-- The `.output.raw` each of the seven statically created task objects holds
after execution stopped (normally or by an exception): `none` models a task
object whose `output` is still `None`. -/
structure TaskOutputs where
  search : Option String
  extraction : Option String
  translation : Option String
  description : Option String
  satire : Option String
  tokenomics : Option String
  summary : Option String
  deriving DecidableEq

/-- The `task_names` list of `_get_partial_results`
(src/main.py line 707, src/main_new.py line 557). -/
def task_names : List String :=
  ["search", "extraction", "translation", "description", "satire", "tokenomics", "summary"]

/-- The task outputs in the declared dependency order in which
`_get_partial_results` iterates its `tasks` argument. -/
def orderedOuts (t : TaskOutputs) : List (Option String) :=
  [t.search, t.extraction, t.translation, t.description, t.satire, t.tokenomics, t.summary]

/-- The `results` dict built by the loop of `_get_partial_results`
(src/main.py lines 708-713): every task whose `output` is set contributes its
entry, in iteration order; tasks without output are passed over
(`continue`), not a stopping point. -/
def collectResults (t : TaskOutputs) : List (String × String) :=
  (task_names.zip (orderedOuts t)).filterMap
    (fun p => p.2.map (fun o => (p.1, o)))

/-- Embedding of `_get_partial_results` (src/main.py lines 702-734 and the
identical src/main_new.py lines 551-584): if the satire task has an output,
return the partial dict built from `results` (the file write is modelled as
succeeding); otherwise return `None`. -/
def get_partial_results (t : TaskOutputs) (timestamp : String) :
    Option (List (String × PyVal)) :=
  match (collectResults t).lookup "satire" with
  | some satireText =>
    some
      [("json_data",
          match (collectResults t).lookup "summary" with
          | some j => PyVal.str j
          | none => PyVal.pyNone),
       ("satire_filename",
          PyVal.str ("./outputs/partial_launchpad_description_" ++ timestamp ++ ".txt")),
       ("satire_content", PyVal.str satireText),
       ("partial", PyVal.bool true)]
  | none => none

/-- Presence of the three credential environment variables read at
`MemeAgentCrew.__init__` time (a variable set to the empty string is falsy in
Python and counts as absent, so presence is a Bool). -/
structure Env where
  serper : Bool
  gemini : Bool
  google : Bool
  deriving DecidableEq

/-- Embedding of `MemeAgentCrew.__init__` as far as control flow goes
(src/main.py lines 68-79, src/main_new.py lines 23-34): `_check_serper_key`
runs first and raises `RuntimeError` when SERPER_API_KEY is absent; then
`_get_api_key` raises when neither GEMINI_API_KEY nor GOOGLE_API_KEY is set.
`Except.error` models a raised exception. -/
def memeAgentCrewInit (env : Env) : Except String Unit :=
  if env.serper = false then
    Except.error "Set SERPER_API_KEY in your .env (required by SerperDevTool)"
  else if env.gemini = false && env.google = false then
    Except.error "Set GEMINI_API_KEY or GOOGLE_API_KEY in your .env"
  else Except.ok ()

/-- What happened to one dynamically created image-search task, as observed by
the result-parsing loop of src/main.py lines 643-652: the task object has no
output, or its output parsed as JSON with or without an `image_url` field, or
parsing raised. -/
inductive ImgTaskOutcome where
  | noOutput
  | parsed (url : Option String)
  | parseFail
  deriving DecidableEq

/-- One iteration of the `image_results` loop (src/main.py lines 644-652),
for index `i` (0-based as in `enumerate`). -/
def imageResultEntry (i : Nat) (o : ImgTaskOutcome) : Option (String × String) :=
  match o with
  | ImgTaskOutcome.noOutput => none
  | ImgTaskOutcome.parsed (some u) => some ("keyword" ++ toString (i + 1), u)
  | ImgTaskOutcome.parsed none =>
      some ("keyword" ++ toString (i + 1), "no_result_" ++ toString (i + 1))
  | ImgTaskOutcome.parseFail =>
      some ("keyword" ++ toString (i + 1), "parse_error_" ++ toString (i + 1))

/-- The `image_results` dict of src/main.py lines 643-652, built over
`zip(image_search_tasks, keywords)` (hence truncated to the keyword count). -/
def imageResults (keywords : List String) (outs : List ImgTaskOutcome) :
    List (String × String) :=
  ((keywords.zip outs).enum).filterMap (fun p => imageResultEntry p.1 p.2.2)

namespace Main

/-- Embedding of `MemeAgentCrew.run_satire_generation` (src/main.py lines
572-700).  Explicit outcome parameters: `crew1Ok` — the first
`initial_crew.kickoff` returned normally; `crew2Ok` — the second
`remaining_crew.kickoff` returned normally; `t` — the outputs the seven
static task objects hold; `imgOuts` — what each dynamic image-search task's
output looked like; `timestamp` — the formatted clock value.  Every exception
inside the `try` block (a kickoff failure or an `AttributeError` from reading
`.output.raw` of a task with no output) lands in the `except` handler, which
returns `_get_partial_results` (itself guarded, returning `None` on its own
failure). -/
def run_satire_generation (keyword : String) (t : TaskOutputs)
    (crew1Ok crew2Ok : Bool) (imgOuts : List ImgTaskOutcome) (timestamp : String) :
    Option (List (String × PyVal)) :=
  if crew1Ok = false then get_partial_results t timestamp
  else
    match t.translation with
    | none => get_partial_results t timestamp
    | some translation_result =>
      let keywords := extract_keywords_from_translation translation_result
      if crew2Ok = false then get_partial_results t timestamp
      else
        match t.description, t.satire, t.tokenomics, t.summary with
        | some _, some satire_result, some _, some summary_json =>
          some
            [("json_data", PyVal.str summary_json),
             ("satire_filename",
                PyVal.str ("./outputs/launchpad_description_" ++ keyword ++ "_"
                  ++ timestamp ++ ".txt")),
             ("satire_content", PyVal.str satire_result),
             ("image_urls", PyVal.strDict (imageResults keywords imgOuts)),
             ("keywords", PyVal.strList keywords),
             ("translation_result", PyVal.str translation_result)]
        | _, _, _, _ => get_partial_results t timestamp

/-- Embedding of the public entry point `generate_satire_for_team`
(src/main.py lines 737-770).  `MemeAgentCrew()` is constructed before the
`try` block, so an `Except.error` from `memeAgentCrewInit` propagates to the
caller; everything after it resolves to `Except.ok` of a result dict. -/
def generate_satire_for_team (env : Env) (input : List (String × String))
    (t : TaskOutputs) (crew1Ok crew2Ok : Bool) (imgOuts : List ImgTaskOutcome)
    (timestamp : String) : Except String (List (String × PyVal)) :=
  match memeAgentCrewInit env with
  | Except.error e => Except.error e
  | Except.ok _ =>
    if (input.lookup "keyword").getD "" = "" then
      Except.ok [("error", PyVal.str "키워드가 제공되지 않았습니다.")]
    else
      match run_satire_generation ((input.lookup "keyword").getD "") t crew1Ok crew2Ok
          imgOuts timestamp with
      | some r => Except.ok r
      | none => Except.ok [("error", PyVal.str "풍자글 생성에 실패했습니다.")]

end Main

namespace MainNew

/-- Embedding of `MemeAgentCrew.run_satire_generation` of src/main_new.py
(lines 455-549): a single crew kickoff, then the five `.output.raw` reads
(translation, description, satire, tokenomics, summary); any exception lands
in the handler returning `_get_partial_results`. -/
def run_satire_generation (keyword : String) (t : TaskOutputs) (crewOk : Bool)
    (timestamp : String) : Option (List (String × PyVal)) :=
  if crewOk = false then get_partial_results t timestamp
  else
    match t.translation, t.description, t.satire, t.tokenomics, t.summary with
    | some _, some _, some satire_result, some _, some summary_json =>
      some
        [("json_data", PyVal.str summary_json),
         ("satire_filename",
            PyVal.str ("./outputs/launchpad_description_" ++ keyword ++ "_"
              ++ timestamp ++ ".txt")),
         ("satire_content", PyVal.str satire_result)]
    | _, _, _, _, _ => get_partial_results t timestamp

/-- Embedding of `generate_satire_for_team` of src/main_new.py (lines
587-617); same boundary structure as the src/main.py version. -/
def generate_satire_for_team (env : Env) (input : List (String × String))
    (t : TaskOutputs) (crewOk : Bool) (timestamp : String) :
    Except String (List (String × PyVal)) :=
  match memeAgentCrewInit env with
  | Except.error e => Except.error e
  | Except.ok _ =>
    if (input.lookup "keyword").getD "" = "" then
      Except.ok [("error", PyVal.str "키워드가 제공되지 않았습니다.")]
    else
      match run_satire_generation ((input.lookup "keyword").getD "") t crewOk timestamp with
      | some r => Except.ok r
      | none => Except.ok [("error", PyVal.str "풍자글 생성에 실패했습니다.")]

end MainNew

/-- One entry of the `images` array: the optional `imageUrl` and `link`
fields (absent = `None`). -/
structure SerperImage where
  imageUrl : Option String
  link : Option String
  deriving DecidableEq

/-- What the HTTP exchange inside `serper_image_search` did: the request (or
`raise_for_status`, or `.json()`) raised, or it produced a parsed body whose
`images` entry is the given list (`results.get('images', [])` defaults to an
empty list). -/
inductive HttpOutcome where
  | raised (msg : String)
  | ok (images : List SerperImage)
  deriving DecidableEq

/-- Python `a or b` for an optional string `a`: `None` and the empty string
are falsy. -/
def pyOrS (a : Option String) (b : String) : String :=
  match a with
  | some s => if s = "" then b else s
  | none => b

/-- Python falsiness of the `os.getenv("SERPER_API_KEY")` value in
`if not api_key`: `None` and the empty string both count as missing. -/
def serperKeyMissing : Option String → Bool
  | none => true
  | some k => k == ""

/-- Embedding of the `serper_image_search` tool (src/main.py lines 27-50),
returning the dict that `json.dumps` would serialize.  The API key check
happens before any request; every exception from the request onward is caught
and encoded into the `image_url` field. -/
def serper_image_search (apiKey : Option String) (search_query : String)
    (net : HttpOutcome) : List (String × String) :=
  if serperKeyMissing apiKey then
    [("keyword", search_query), ("image_url", "API key missing")]
  else
    match net with
    | HttpOutcome.raised e =>
        [("keyword", search_query), ("image_url", "Search error: " ++ e)]
    | HttpOutcome.ok [] =>
        [("keyword", search_query), ("image_url", "No image found")]
    | HttpOutcome.ok (item :: _) =>
        [("keyword", search_query),
         ("image_url", pyOrS item.imageUrl (pyOrS item.link "No image found"))]

/-- Rejection reasons of the Content Validator, in the spec's fixed priority
order (§4.1). -/
inductive RejectReason where
  | too_short
  | char_repetition
  | bigram_repetition
  | trigram_repetition
  | low_diversity
  | sentence_repetition
  | insufficient_sentences
  | markup_noise
  | wrong_language
  deriving DecidableEq

/-- Verdict of the Content Validator. -/
inductive Verdict where
  | accepted
  | rejected (reason : RejectReason)
  deriving DecidableEq

/-- Length of the longest run of one repeated character, keeping the current
run length and the best seen so far. -/
def maxRunAux (prev : Char) (cur best : Nat) : List Char → Nat
  | [] => max cur best
  | c :: rest =>
    if c = prev then maxRunAux c (cur + 1) best rest
    else maxRunAux c 1 (max cur best) rest

/-- Longest consecutive repetition of a single character. -/
def maxConsecRun : List Char → Nat
  | [] => 0
  | c :: rest => maxRunAux c 1 0 rest

/-- The adjacent 2-character sequences of a text. -/
def bigrams (t : List Char) : List (Char × Char) := t.zip t.tail

/-- The adjacent 3-character sequences of a text. -/
def trigrams (t : List Char) : List ((Char × Char) × Char) :=
  (t.zip t.tail).zip t.tail.tail

/-- Number of distinct characters in the text. -/
def uniqueCharCount (t : List Char) : Nat := t.dedup.length

/-- Hangul syllable block (the target script of the extracted articles). -/
def isHangul (c : Char) : Bool := 0xAC00 ≤ c.toNat && c.toNat ≤ 0xD7A3

/-- The complete sentences of a text: the segments between sentence
terminators (`.`, `!`, `?`), trimmed, with empty segments dropped. -/
def completeSentences (t : List Char) : List (List Char) :=
  ((splitOnPred (fun c => c = '.' || c = '!' || c = '?') t).map
    (pyStrip isPySpace)).filter (fun s => s ≠ [])

/-- The complete sentences written in the target script (containing at least
one Hangul syllable). -/
def koreanSentences (t : List Char) : List (List Char) :=
  (completeSentences t).filter (fun s => s.any isHangul)

/-- Count of the occurrences of `pat` in `t` (at every start position). -/
def countOccs (pat : List Char) : List Char → Nat
  | [] => 0
  | c :: rest =>
    (if (dropLit pat (c :: rest)).isSome then 1 else 0) + countOccs pat rest

/-- Total number of markup-tag-name occurrences (the tag names the source
prompt names: `div` and `span`). -/
def markupTokenCount (t : List Char) : Nat :=
  countOccs "div".toList t + countOccs "span".toList t

/-- Python `string.punctuation`. -/
def isPunct (c : Char) : Bool :=
  c ∈ "!\"#$%&\x27()*+,-./:;<=>?@[\\]^_`\x7b|\x7d~".toList

/-- The content characters of a text: everything that is neither whitespace
nor punctuation. -/
def contentChars (t : List Char) : List Char :=
  t.filter (fun c => !(isPySpace c) && !(isPunct c))

/-- The diversity floor of check 5; the value comes from the source prompt's
"less than 50 unique characters" instruction (src/main.py line 281). -/
def diversityFloor : Nat := 50

/-- Modelled from the spec: the Content Validator `validate` of §4.1, whose
checks exist in the source only as natural-language instructions inside the
`create_extraction_task` prompt (src/main.py lines 251-324), not as
executable code.  The nine content checks are applied in the spec's fixed
priority order; the first matching check wins. -/
def validate (t : List Char) : Verdict :=
  if t.length < 100 then Verdict.rejected RejectReason.too_short
  else if maxConsecRun t > 20 then Verdict.rejected RejectReason.char_repetition
  else if (bigrams t).any (fun p => (bigrams t).count p > 30) then
    Verdict.rejected RejectReason.bigram_repetition
  else if (trigrams t).any (fun p => (trigrams t).count p > 100) then
    Verdict.rejected RejectReason.trigram_repetition
  else if t.length > 10000 && uniqueCharCount t < diversityFloor then
    Verdict.rejected RejectReason.low_diversity
  else if (completeSentences t).any (fun s => (completeSentences t).count s ≥ 3) then
    Verdict.rejected RejectReason.sentence_repetition
  else if (koreanSentences t).dedup.length < 5 then
    Verdict.rejected RejectReason.insufficient_sentences
  else if markupTokenCount t > 15 then Verdict.rejected RejectReason.markup_noise
  else if ((contentChars t).filter (fun c => !(isHangul c))).length * 10
      > (contentChars t).length * 3 then
    Verdict.rejected RejectReason.wrong_language
  else Verdict.accepted

/-- A block of `n` consecutive distinct Hangul syllables starting at offset
`start` from U+AC00. -/
def hangulBlock (start n : Nat) : List Char :=
  (List.range n).map (fun i => Char.ofNat (0xAC00 + start + i))

/-- A 100-character text of five distinct 19-syllable Hangul sentences, each
closed by a period: the boundary witness for the validator. -/
def boundaryText100 : List Char :=
  hangulBlock 0 19 ++ ['.'] ++ hangulBlock 19 19 ++ ['.'] ++ hangulBlock 38 19
    ++ ['.'] ++ hangulBlock 57 19 ++ ['.'] ++ hangulBlock 76 19 ++ ['.']

/-- The collection rule exactly as the spec words it (§4.4): walk the nodes
in declared order and stop the collection boundary at the first node without
an output.  This is the spec's version, kept beside `collectResults` (the
code's version) for comparison. -/
def collectUntilFirstFailure (t : TaskOutputs) : List (String × String) :=
  ((task_names.zip (orderedOuts t)).takeWhile (fun p => p.2.isSome)).filterMap
    (fun p => p.2.map (fun o => (p.1, o)))

/-- A run where the extraction task failed but the later satire task still
produced an output. -/
def cexOuts : TaskOutputs :=
  ⟨some "A", none, none, none, some "S", none, none⟩

/-- A fully successful run: all seven task objects hold an output. -/
def allOuts : TaskOutputs :=
  ⟨some "se", some "ex", some "tr", some "de", some "sa", some "tk", some "su"⟩

/-- A run where no task produced any output. -/
def noneOuts : TaskOutputs :=
  ⟨none, none, none, none, none, none, none⟩

theorem lookup_collectResults_satire (t : TaskOutputs) :
    (collectResults t).lookup "satire" = t.satire := by
  rcases t with ⟨s1, s2, s3, s4, s5, s6, s7⟩
  cases s1 <;> cases s2 <;> cases s3 <;> cases s4 <;> cases s5 <;> cases s6 <;>
    cases s7 <;> rfl

theorem lookup_collectResults_summary (t : TaskOutputs) :
    (collectResults t).lookup "summary" = t.summary := by
  rcases t with ⟨s1, s2, s3, s4, s5, s6, s7⟩
  cases s1 <;> cases s2 <;> cases s3 <;> cases s4 <;> cases s5 <;> cases s6 <;>
    cases s7 <;> rfl

/-- Closed form of `get_partial_results` as a function of the satire and
summary outputs alone. -/
theorem get_partial_results_eq (t : TaskOutputs) (ts : String) :
    get_partial_results t ts =
      match t.satire with
      | some s =>
        some
          [("json_data",
              match t.summary with
              | some j => PyVal.str j
              | none => PyVal.pyNone),
           ("satire_filename",
              PyVal.str ("./outputs/partial_launchpad_description_" ++ ts ++ ".txt")),
           ("satire_content", PyVal.str s),
           ("partial", PyVal.bool true)]
      | none => none := by
  unfold get_partial_results
  rw [lookup_collectResults_satire, lookup_collectResults_summary]

theorem gpr_shape (t : TaskOutputs) (ts : String) :
    get_partial_results t ts = none ∨
    ∃ d, get_partial_results t ts = some d ∧
      (d.lookup "json_data").isSome ∧ (d.lookup "satire_content").isSome := by
  rw [get_partial_results_eq]
  cases t.satire with
  | none => exact Or.inl rfl
  | some s => exact Or.inr ⟨_, rfl, rfl, rfl⟩

theorem main_run_shape (kw : String) (t : TaskOutputs) (c1 c2 : Bool)
    (imgs : List ImgTaskOutcome) (ts : String) :
    Main.run_satire_generation kw t c1 c2 imgs ts = none ∨
    ∃ d, Main.run_satire_generation kw t c1 c2 imgs ts = some d ∧
      (d.lookup "json_data").isSome ∧ (d.lookup "satire_content").isSome := by
  rcases t with ⟨f1, f2, f3, f4, f5, f6, f7⟩
  cases c1 <;> cases c2 <;> cases f3 <;> cases f4 <;> cases f5 <;> cases f6 <;>
    cases f7 <;>
    first
      | exact gpr_shape _ ts
      | exact Or.inr ⟨_, rfl, rfl, rfl⟩

theorem mainNew_run_shape (kw : String) (t : TaskOutputs) (c : Bool) (ts : String) :
    MainNew.run_satire_generation kw t c ts = none ∨
    ∃ d, MainNew.run_satire_generation kw t c ts = some d ∧
      (d.lookup "json_data").isSome ∧ (d.lookup "satire_content").isSome := by
  rcases t with ⟨f1, f2, f3, f4, f5, f6, f7⟩
  cases c <;> cases f3 <;> cases f4 <;> cases f5 <;> cases f6 <;> cases f7 <;>
    first
      | exact gpr_shape _ ts
      | exact Or.inr ⟨_, rfl, rfl, rfl⟩

theorem memeAgentCrewInit_ok (env : Env) (h1 : env.serper = true)
    (h2 : env.gemini = true ∨ env.google = true) :
    memeAgentCrewInit env = Except.ok () := by
  rcases env with ⟨s, g1, g2⟩
  cases s <;> cases g1 <;> cases g2 <;>
    first
      | rfl
      | exact absurd h1 (by decide)
      | (rcases h2 with h | h <;> exact absurd h (by decide))

/-- C1 (counterexample): with SERPER_API_KEY absent from the environment and
a well-formed input dict, `generate_satire_for_team` constructs
`MemeAgentCrew()` before its `try` block, so the constructor's `RuntimeError`
propagates past the public boundary instead of being turned into a tagged
result dict — the claim as stated is false at this input. -/
theorem generate_satire_missing_key_raises :
    Main.generate_satire_for_team ⟨false, true, true⟩ [("keyword", "정동원")]
        noneOuts true true [] "20250101_000000"
      = Except.error "Set SERPER_API_KEY in your .env (required by SerperDevTool)" ∧
    MainNew.generate_satire_for_team ⟨false, true, true⟩ [("keyword", "정동원")]
        noneOuts true "20250101_000000"
      = Except.error "Set SERPER_API_KEY in your .env (required by SerperDevTool)" :=
  ⟨rfl, rfl⟩

/-- C1 (amended): when the required credentials are present — SERPER_API_KEY
and at least one of GEMINI_API_KEY / GOOGLE_API_KEY — both entry points
return a tagged result dict (an error-tagged dict, or a success/partial dict
carrying `json_data` and `satire_content`) for every input dict and every
behaviour of the external crews, and no exception escapes; when SERPER_API_KEY
is missing, or both LLM keys are missing, the constructor's exception
propagates past the boundary. -/
theorem generate_satire_boundary_tagged :
    ∀ (env : Env) (input : List (String × String)) (t : TaskOutputs)
      (c1 c2 c : Bool) (imgs : List ImgTaskOutcome) (ts : String),
      (env.serper = true → (env.gemini = true ∨ env.google = true) →
        (∃ d, Main.generate_satire_for_team env input t c1 c2 imgs ts = Except.ok d ∧
          ((d.lookup "error").isSome ∨
            ((d.lookup "json_data").isSome ∧ (d.lookup "satire_content").isSome))) ∧
        (∃ d, MainNew.generate_satire_for_team env input t c ts = Except.ok d ∧
          ((d.lookup "error").isSome ∨
            ((d.lookup "json_data").isSome ∧ (d.lookup "satire_content").isSome)))) ∧
      ((env.serper = false ∨ (env.gemini = false ∧ env.google = false)) →
        (∃ e, Main.generate_satire_for_team env input t c1 c2 imgs ts = Except.error e) ∧
        (∃ e, MainNew.generate_satire_for_team env input t c ts = Except.error e)) := by
  intro env input t c1 c2 c imgs ts
  constructor
  · intro h1 h2
    have hinit := memeAgentCrewInit_ok env h1 h2
    constructor
    · unfold Main.generate_satire_for_team
      rw [hinit]
      by_cases hk : (input.lookup "keyword").getD "" = ""
      · rw [if_pos hk]
        exact ⟨_, rfl, Or.inl rfl⟩
      · rw [if_neg hk]
        rcases main_run_shape ((input.lookup "keyword").getD "") t c1 c2 imgs ts with
          hr | ⟨d, hr, hd1, hd2⟩
        · rw [hr]
          exact ⟨_, rfl, Or.inl rfl⟩
        · rw [hr]
          exact ⟨d, rfl, Or.inr ⟨hd1, hd2⟩⟩
    · unfold MainNew.generate_satire_for_team
      rw [hinit]
      by_cases hk : (input.lookup "keyword").getD "" = ""
      · rw [if_pos hk]
        exact ⟨_, rfl, Or.inl rfl⟩
      · rw [if_neg hk]
        rcases mainNew_run_shape ((input.lookup "keyword").getD "") t c ts with
          hr | ⟨d, hr, hd1, hd2⟩
        · rw [hr]
          exact ⟨_, rfl, Or.inl rfl⟩
        · rw [hr]
          exact ⟨d, rfl, Or.inr ⟨hd1, hd2⟩⟩
  · intro h
    have hinit : ∃ e, memeAgentCrewInit env = Except.error e := by
      rcases env with ⟨s, g1, g2⟩
      rcases h with h | ⟨ha, hb⟩
      · simp only at h
        subst h
        exact ⟨_, rfl⟩
      · simp only at ha hb
        subst ha
        subst hb
        cases s <;> exact ⟨_, rfl⟩
    rcases hinit with ⟨e, he⟩
    constructor
    · exact ⟨e, by unfold Main.generate_satire_for_team; rw [he]⟩
    · exact ⟨e, by unfold MainNew.generate_satire_for_team; rw [he]⟩

/-- Witness for the amended C1 theorem at concrete inputs: with all
credentials present the entry points return `Except.ok` tagged dicts; with
SERPER_API_KEY absent they return `Except.error`. -/
theorem generate_satire_boundary_tagged_witness :
    (∃ d, Main.generate_satire_for_team ⟨true, true, true⟩ [("keyword", "정우성")]
        noneOuts true true [] "20250101_000000" = Except.ok d ∧
      ((d.lookup "error").isSome ∨
        ((d.lookup "json_data").isSome ∧ (d.lookup "satire_content").isSome))) ∧
    (∃ e, MainNew.generate_satire_for_team ⟨false, true, true⟩ [("keyword", "정우성")]
        noneOuts true "20250101_000000" = Except.error e) := by
  constructor
  · exact ((generate_satire_boundary_tagged ⟨true, true, true⟩ [("keyword", "정우성")]
      noneOuts true true true [] "20250101_000000").1 rfl (Or.inl rfl)).1
  · exact ((generate_satire_boundary_tagged ⟨false, true, true⟩ [("keyword", "정우성")]
      noneOuts true true true [] "20250101_000000").2 (Or.inl rfl)).2

/-- C2: the salvage collector returns a `partial = true` result carrying the
satire (minimal-viable) task's artifact as `satire_content` exactly when that
task produced an output, and returns `None` (run reported failed) otherwise. -/
theorem salvage_partial_iff_satire :
    ∀ (t : TaskOutputs) (ts : String),
      (∀ s, t.satire = some s →
        get_partial_results t ts =
          some
            [("json_data",
                match t.summary with
                | some j => PyVal.str j
                | none => PyVal.pyNone),
             ("satire_filename",
                PyVal.str ("./outputs/partial_launchpad_description_" ++ ts ++ ".txt")),
             ("satire_content", PyVal.str s),
             ("partial", PyVal.bool true)]) ∧
      (t.satire = none → get_partial_results t ts = none) := by
  intro t ts
  constructor
  · intro s hs
    rw [get_partial_results_eq, hs]
  · intro hs
    rw [get_partial_results_eq, hs]

/-- Witness for C2 at a concrete run where only the satire and summary tasks
produced outputs. -/
theorem salvage_partial_iff_satire_witness :
    get_partial_results ⟨none, none, none, none, some "S", none, some "J"⟩
        "20250101_000000"
      = some
          [("json_data", PyVal.str "J"),
           ("satire_filename",
              PyVal.str "./outputs/partial_launchpad_description_20250101_000000.txt"),
           ("satire_content", PyVal.str "S"),
           ("partial", PyVal.bool true)] :=
  (salvage_partial_iff_satire ⟨none, none, none, none, some "S", none, some "J"⟩
    "20250101_000000").1 "S" rfl

/-- C3 (counterexample): when the keyword marker is present but its brackets
contain no nonempty token, `extract_keywords_from_translation` returns the
empty list — a zero-element result, contradicting the claimed lower bound of
1 keyword (the fallback is not substituted because the regex matched). -/
theorem extract_keywords_empty_marker :
    extract_keywords_from_translation "**Key Visual Keywords:** []" = [] ∧
    ¬(1 ≤ (extract_keywords_from_translation "**Key Visual Keywords:** []").length) := by
  constructor
  · decide
  · decide

/-- C3 (amended): `extract_keywords_from_translation` returns at most 3
keywords on every input; a zero-element result can only arise when the
marker was found (so the parse succeeded but yielded no nonempty token) —
the fallback path always yields 3 elements. -/
theorem extract_keywords_bound :
    ∀ s : String,
      (extract_keywords_from_translation s).length ≤ 3 ∧
      (extract_keywords_from_translation s = [] →
        ∃ cap, kvkSearch s.toList = some cap) := by
  intro s
  unfold extract_keywords_from_translation
  cases h : kvkSearch s.toList with
  | none =>
    refine ⟨by decide, fun he => ?_⟩
    exact absurd he (by decide)
  | some cap =>
    constructor
    · rw [List.length_take]
      exact min_le_left _ _
    · intro _
      exact ⟨cap, rfl⟩

/-- Witness for the amended C3 theorem at the marker-with-empty-brackets
input: the result length is at most 3, and since the result is empty the
marker must indeed have matched. -/
theorem extract_keywords_bound_witness :
    (extract_keywords_from_translation "**Key Visual Keywords:** []").length ≤ 3 ∧
    (∃ cap, kvkSearch "**Key Visual Keywords:** []".toList = some cap) :=
  ⟨(extract_keywords_bound "**Key Visual Keywords:** []").1,
   (extract_keywords_bound "**Key Visual Keywords:** []").2 (by decide)⟩

/-- C4: whenever the keyword marker does not match anywhere in the input,
`extract_keywords_from_translation` returns exactly the fixed fallback list
`["Korean Issue", "News", "Trending"]`, and the dynamic fan-out of
`run_satire_generation` then creates exactly 3 image-search tasks. -/
theorem extract_keywords_fallback :
    ∀ s : String, kvkSearch s.toList = none →
      extract_keywords_from_translation s = ["Korean Issue", "News", "Trending"] ∧
      (imageSearchTasks (extract_keywords_from_translation s)).length = 3 := by
  intro s h
  have he : extract_keywords_from_translation s = ["Korean Issue", "News", "Trending"] := by
    unfold extract_keywords_from_translation
    rw [h]
    rfl
  exact ⟨he, by rw [he]; rfl⟩

/-- Witness for C4 at a concrete marker-free input. -/
theorem extract_keywords_fallback_witness :
    extract_keywords_from_translation "hello" = ["Korean Issue", "News", "Trending"] ∧
    (imageSearchTasks (extract_keywords_from_translation "hello")).length = 3 :=
  extract_keywords_fallback "hello" (by decide)

/-- C5 (counterexample): at a run where the extraction task (node 2) failed
but the satire task (node 5) still holds an output, the salvage collector
still collects and returns the satire artifact: its collection differs from
the spec's stop-at-first-failure rule, so a node after the first failed node
is not excluded. -/
theorem salvage_no_boundary_cex :
    cexOuts.extraction = none ∧
    ("satire", "S") ∈ collectResults cexOuts ∧
    collectResults cexOuts ≠ collectUntilFirstFailure cexOuts ∧
    (get_partial_results cexOuts "20250101_000000").map
        (fun d => d.lookup "satire_content")
      = some (some (PyVal.str "S")) := by
  refine ⟨rfl, by decide, by decide, rfl⟩

/-- C5 (amended): the salvage collector walks the task list in declared
dependency order and collects the output of every node that produced one —
membership of a (name, output) pair in the collected results depends only on
that node's own output, with no stopping boundary at the first failed or
skipped node. -/
theorem collect_results_mem :
    ∀ (t : TaskOutputs) (n o : String),
      (n, o) ∈ collectResults t ↔ (n, some o) ∈ task_names.zip (orderedOuts t) := by
  intro t n o
  constructor
  · intro h
    rcases List.mem_filterMap.mp h with ⟨⟨a1, a2⟩, ha, hf⟩
    rcases a2 with _ | x
    · simp at hf
    · simp at hf
      obtain ⟨h1, h2⟩ := hf
      rw [h1, h2] at ha
      exact ha
  · intro h
    exact List.mem_filterMap.mpr ⟨(n, some o), h, rfl⟩

/-- C6: the content validator is a deterministic, total function of the raw
text: equal texts receive equal verdicts, every text receives exactly one
verdict, and that verdict is either `accepted` or `rejected` with exactly one
reason. -/
theorem validate_deterministic_total :
    ∀ t t₂ : List Char, t = t₂ →
      validate t = validate t₂ ∧
      (∃! v, validate t = v) ∧
      (validate t = Verdict.accepted ∨ ∃! r, validate t = Verdict.rejected r) := by
  intro t t₂ h
  refine ⟨by rw [h], ⟨validate t, rfl, fun v hv => hv.symm⟩, ?_⟩
  cases hv : validate t with
  | accepted => exact Or.inl rfl
  | rejected r =>
    refine Or.inr ⟨r, rfl, fun r2 hr2 => ?_⟩
    injection hr2 with hr
    exact hr.symm

/-- Witness for C6 at a concrete one-character text (two runs on the same
text give the same unique verdict). -/
theorem validate_deterministic_total_witness :
    validate ['가'] = validate ['가'] ∧
    (∃! v, validate ['가'] = v) ∧
    (validate ['가'] = Verdict.accepted ∨ ∃! r, validate ['가'] = Verdict.rejected r) :=
  validate_deterministic_total ['가'] ['가'] rfl

/-- C7: the length check is the first content check of the validator: every
text shorter than 100 characters — whatever else it contains — is rejected as
`too_short`, while `boundaryText100`, a 100-character repetition-free text,
passes every check and is accepted. -/
theorem validate_length_check_priority :
    (∀ t : List Char, t.length < 100 → validate t = Verdict.rejected RejectReason.too_short) ∧
    boundaryText100.length = 100 ∧
    validate boundaryText100 = Verdict.accepted := by
  refine ⟨?_, by decide, by decide⟩
  intro t h
  unfold validate
  rw [if_pos h]

/-- Witness for C7 at a concrete 99-character text. -/
theorem validate_length_check_priority_witness :
    validate (hangulBlock 0 99) = Verdict.rejected RejectReason.too_short :=
  validate_length_check_priority.1 (hangulBlock 0 99) (by decide)

/-- C8 (counterexample): on a fully successful run, the src/main_new.py
variant's result dict carries `json_data` but no `keywords` and no
`translation_result` key, contradicting the claim for that entry point. -/
theorem main_new_success_keys_cex :
    (MainNew.run_satire_generation "정우성" allOuts true "20250101_000000").map
        (fun d => (d.lookup "json_data", d.lookup "keywords", d.lookup "translation_result"))
      = some (some (PyVal.str "su"), none, none) :=
  rfl

/-- C8 (amended): on a successful run the src/main.py result dict has exactly
the keys `json_data`, `satire_filename` (artifact filename),
`satire_content` (artifact content), `image_urls`, `keywords` and
`translation_result`, while the src/main_new.py result dict has only
`json_data`, `satire_filename` and `satire_content`; and on unrecoverable
failure the process-level result is the tagged dict `{error: string}`. -/
theorem success_output_keys :
    (∀ (kw : String) (t : TaskOutputs) (imgs : List ImgTaskOutcome) (ts : String)
        (tr de sa tk su : String),
      t.translation = some tr → t.description = some de → t.satire = some sa →
      t.tokenomics = some tk → t.summary = some su →
      ∃ d, Main.run_satire_generation kw t true true imgs ts = some d ∧
        d.map Prod.fst =
          ["json_data", "satire_filename", "satire_content", "image_urls",
           "keywords", "translation_result"]) ∧
    (∀ (kw : String) (t : TaskOutputs) (ts : String) (tr de sa tk su : String),
      t.translation = some tr → t.description = some de → t.satire = some sa →
      t.tokenomics = some tk → t.summary = some su →
      ∃ d, MainNew.run_satire_generation kw t true ts = some d ∧
        d.map Prod.fst = ["json_data", "satire_filename", "satire_content"]) ∧
    (∀ (env : Env) (input : List (String × String)) (t : TaskOutputs)
        (c1 c2 : Bool) (imgs : List ImgTaskOutcome) (ts : String),
      memeAgentCrewInit env = Except.ok () →
      (input.lookup "keyword").getD "" ≠ "" →
      Main.run_satire_generation ((input.lookup "keyword").getD "") t c1 c2 imgs ts = none →
      Main.generate_satire_for_team env input t c1 c2 imgs ts
        = Except.ok [("error", PyVal.str "풍자글 생성에 실패했습니다.")]) := by
  refine ⟨?_, ?_, ?_⟩
  · intro kw t imgs ts tr de sa tk su h3 h4 h5 h6 h7
    rcases t with ⟨f1, f2, f3, f4, f5, f6, f7⟩
    simp only at h3 h4 h5 h6 h7
    subst h3; subst h4; subst h5; subst h6; subst h7
    exact ⟨_, rfl, rfl⟩
  · intro kw t ts tr de sa tk su h3 h4 h5 h6 h7
    rcases t with ⟨f1, f2, f3, f4, f5, f6, f7⟩
    simp only at h3 h4 h5 h6 h7
    subst h3; subst h4; subst h5; subst h6; subst h7
    exact ⟨_, rfl, rfl⟩
  · intro env input t c1 c2 imgs ts hinit hk hrun
    unfold Main.generate_satire_for_team
    rw [hinit, if_neg hk, hrun]

/-- Witness for the amended C8 theorem: the key lists of both entry points'
success dicts at a fully successful concrete run, and the process-level error
dict when the run yields nothing. -/
theorem success_output_keys_witness :
    (∃ d, Main.run_satire_generation "k" allOuts true true [] "ts" = some d ∧
      d.map Prod.fst =
        ["json_data", "satire_filename", "satire_content", "image_urls",
         "keywords", "translation_result"]) ∧
    (∃ d, MainNew.run_satire_generation "k" allOuts true "ts" = some d ∧
      d.map Prod.fst = ["json_data", "satire_filename", "satire_content"]) ∧
    Main.generate_satire_for_team ⟨true, true, true⟩ [("keyword", "k")] noneOuts
        false false [] "ts"
      = Except.ok [("error", PyVal.str "풍자글 생성에 실패했습니다.")] :=
  ⟨success_output_keys.1 "k" allOuts [] "ts" "tr" "de" "sa" "tk" "su"
      rfl rfl rfl rfl rfl,
   success_output_keys.2.1 "k" allOuts "ts" "tr" "de" "sa" "tk" "su"
      rfl rfl rfl rfl rfl,
   success_output_keys.2.2 ⟨true, true, true⟩ [("keyword", "k")] noneOuts
      false false [] "ts" rfl (by decide) rfl⟩

theorem serper_shape (apiKey : Option String) (q : String) (net : HttpOutcome) :
    ∃ u, serper_image_search apiKey q net = [("keyword", q), ("image_url", u)] := by
  unfold serper_image_search
  by_cases h : serperKeyMissing apiKey = true
  · rw [if_pos h]
    exact ⟨_, rfl⟩
  · rw [if_neg h]
    rcases net with e | imgs
    · exact ⟨_, rfl⟩
    · rcases imgs with _ | ⟨i, rest⟩ <;> exact ⟨_, rfl⟩

/-- C9: `serper_image_search` is total over query strings: for every API-key
state and every outcome of the HTTP exchange it returns a JSON object with
exactly the keys `keyword` and `image_url`; a missing (or empty) key, a
raised request/parsing exception, and an empty image result are each encoded
as a value of the `image_url` field rather than thrown. -/
theorem serper_image_search_total :
    ∀ (apiKey : Option String) (q : String) (net : HttpOutcome),
      (serper_image_search apiKey q net).map Prod.fst = ["keyword", "image_url"] ∧
      (serper_image_search apiKey q net).lookup "keyword" = some q ∧
      ((serper_image_search apiKey q net).lookup "image_url").isSome ∧
      (apiKey = none ∨ apiKey = some "" →
        (serper_image_search apiKey q net).lookup "image_url" = some "API key missing") ∧
      (∀ e k, apiKey = some k → k ≠ "" → net = HttpOutcome.raised e →
        (serper_image_search apiKey q net).lookup "image_url"
          = some ("Search error: " ++ e)) ∧
      (∀ k, apiKey = some k → k ≠ "" → net = HttpOutcome.ok [] →
        (serper_image_search apiKey q net).lookup "image_url" = some "No image found") := by
  intro apiKey q net
  obtain ⟨u, hu⟩ := serper_shape apiKey q net
  refine ⟨by rw [hu]; rfl, by rw [hu]; rfl, by rw [hu]; rfl, ?_, ?_, ?_⟩
  · rintro (h | h) <;> subst h <;> rfl
  · rintro e k rfl hne rfl
    unfold serper_image_search
    rw [if_neg (by simp [serperKeyMissing, hne])]
    rfl
  · rintro k rfl hne rfl
    unfold serper_image_search
    rw [if_neg (by simp [serperKeyMissing, hne])]
    rfl

/-- Witness for C9 at concrete inputs: the key-missing encoding and the
request-exception encoding. -/
theorem serper_image_search_total_witness :
    (serper_image_search none "q" (HttpOutcome.ok [])).lookup "image_url"
        = some "API key missing" ∧
    (serper_image_search (some "K") "q" (HttpOutcome.raised "boom")).lookup "image_url"
        = some ("Search error: " ++ "boom") :=
  ⟨(serper_image_search_total none "q" (HttpOutcome.ok [])).2.2.2.1 (Or.inl rfl),
   (serper_image_search_total (some "K") "q" (HttpOutcome.raised "boom")).2.2.2.2.1
     "boom" "K" rfl (by decide) rfl⟩

/-- C10: once `MemeAgentCrew` construction succeeded, an input dict whose
`keyword` entry is missing or the empty string makes both entry points return
the tagged error dict immediately; the result is the same for every crew
outcome and every task-output state, i.e. no pipeline run influences it. -/
theorem empty_keyword_error :
    ∀ (env : Env) (input : List (String × String)) (t : TaskOutputs)
      (c1 c2 c : Bool) (imgs : List ImgTaskOutcome) (ts : String),
      memeAgentCrewInit env = Except.ok () →
      (input.lookup "keyword" = none ∨ input.lookup "keyword" = some "") →
      Main.generate_satire_for_team env input t c1 c2 imgs ts
          = Except.ok [("error", PyVal.str "키워드가 제공되지 않았습니다.")] ∧
      MainNew.generate_satire_for_team env input t c ts
          = Except.ok [("error", PyVal.str "키워드가 제공되지 않았습니다.")] := by
  intro env input t c1 c2 c imgs ts hinit hkw
  have hempty : (input.lookup "keyword").getD "" = "" := by
    rcases hkw with h | h <;> rw [h] <;> rfl
  constructor
  · unfold Main.generate_satire_for_team
    rw [hinit, if_pos hempty]
  · unfold MainNew.generate_satire_for_team
    rw [hinit, if_pos hempty]

/-- Witness for C10 at a concrete input dict without a `keyword` entry. -/
theorem empty_keyword_error_witness :
    Main.generate_satire_for_team ⟨true, true, true⟩ [("why_trending", "w")] allOuts
        true true [] "ts"
      = Except.ok [("error", PyVal.str "키워드가 제공되지 않았습니다.")] ∧
    MainNew.generate_satire_for_team ⟨true, true, true⟩ [("why_trending", "w")] allOuts
        true "ts"
      = Except.ok [("error", PyVal.str "키워드가 제공되지 않았습니다.")] :=
  empty_keyword_error ⟨true, true, true⟩ [("why_trending", "w")] allOuts
    true true true [] "ts" rfl (Or.inl rfl)
